import Mathlib

/-!
Verification of the child body-composition model (`src/child_weight.cpp`):
the Hall et al. dynamic weight-change ODE for children, integrated with a
fixed-step Runge-Kutta-4 driver over a vectorized cohort of individuals.

Embedding conventions:
* C++ `double` arithmetic is modelled as exact rational arithmetic (`ℚ`).
* `Rcpp::NumericVector`s indexed by individual are modelled as `ℕ → ℚ`;
  the cohort size `nind` is carried separately for shape statements.
* The C library transcendentals `exp` and `pow` (the latter only where the
  exponent is not a program constant) are modelled as unspecified function
  fields `Eexp`/`Epow` of the `Child` object: theorems about curve values
  hold for every choice, or assume only sign/monotonicity facts true of the
  real functions.
* The `Rcpp` throwing accessors are modelled with `Option`: `Child::Intake`
  in tabulated mode indexes `EIntake(timeval, _)`, whose `Rcpp::MatrixRow`
  constructor raises `index_out_of_bounds` when the row index is negative
  or at/past the row count; that throw is modelled as `none` and it aborts
  the whole `rk4` run, as the C++ exception would.
-/

namespace ChildWeight

/-- The `Child` object: per-individual input vectors, configuration, and the
abstracted transcendental primitives.  Fields mirror the members set by the
two constructors and `getParameters` in `child_weight.cpp`. -/
structure Child where
  nind : ℕ
  age : ℕ → ℚ
  sex : ℕ → ℚ
  bmiCat : ℕ → ℚ
  FFM : ℕ → ℚ
  FM : ℕ → ℚ
  dt : ℚ
  check : Bool
  referenceValues : ℚ
  generalized_logistic : Bool
  K_logistic : ℚ
  A_logistic : ℚ
  Q_logistic : ℚ
  B_logistic : ℚ
  nu_logistic : ℚ
  C_logistic : ℚ
  /-- `input_EIntake`, a (rows × nind) matrix: row = simulated day index. -/
  EIntake : ℕ → ℕ → ℚ
  /-- number of rows of `EIntake`. -/
  EIntakeRows : ℕ
  /-- model of the C library `exp` on doubles. -/
  Eexp : ℚ → ℚ
  /-- model of the C library `pow` on doubles (used with exponent `1/nu`). -/
  Epow : ℚ → ℚ → ℚ

/-- `rhoFM = 9.4*1000.0` (getParameters). -/
def rhoFM : ℚ := 9.4 * 1000.0

/-- `deltamin = 10.0` (getParameters). -/
def deltamin : ℚ := 10.0

/-- `P = 12.0` (getParameters). -/
def P : ℚ := 12.0

/-- `K = 800*(1 - sex) + 700*sex` (getParameters). -/
def K (c : Child) (i : ℕ) : ℚ := 800 * (1 - c.sex i) + 700 * c.sex i

/-- `deltamax = 19*(1 - sex) + 17*sex` (getParameters). -/
def deltamax (c : Child) (i : ℕ) : ℚ := 19 * (1 - c.sex i) + 17 * c.sex i

/-- growth-dynamic parameters, sex-blended (getParameters). -/
def A (c : Child) (i : ℕ) : ℚ := 3.2 * (1 - c.sex i) + 2.3 * c.sex i

def B (c : Child) (i : ℕ) : ℚ := 9.6 * (1 - c.sex i) + 8.4 * c.sex i

def D (c : Child) (i : ℕ) : ℚ := 10.1 * (1 - c.sex i) + 1.1 * c.sex i

def tA (c : Child) (i : ℕ) : ℚ := 4.7 * (1 - c.sex i) + 4.5 * c.sex i

def tB (c : Child) (i : ℕ) : ℚ := 12.5 * (1 - c.sex i) + 11.7 * c.sex i

def tD (c : Child) (i : ℕ) : ℚ := 15.0 * (1 - c.sex i) + 16.2 * c.sex i

def tauA (c : Child) (i : ℕ) : ℚ := 2.5 * (1 - c.sex i) + 1.0 * c.sex i

def tauB (c : Child) (i : ℕ) : ℚ := 1.0 * (1 - c.sex i) + 0.9 * c.sex i

def tauD (c : Child) (i : ℕ) : ℚ := 1.5 * (1 - c.sex i) + 0.7 * c.sex i

/-- energy-balance-impact parameters, sex-blended (getParameters). -/
def A_EB (c : Child) (i : ℕ) : ℚ := 7.2 * (1 - c.sex i) + 16.5 * c.sex i

def B_EB (c : Child) (i : ℕ) : ℚ := 30 * (1 - c.sex i) + 47.0 * c.sex i

def D_EB (c : Child) (i : ℕ) : ℚ := 21 * (1 - c.sex i) + 41.0 * c.sex i

def tA_EB (c : Child) (i : ℕ) : ℚ := 5.6 * (1 - c.sex i) + 4.8 * c.sex i

def tB_EB (c : Child) (i : ℕ) : ℚ := 9.8 * (1 - c.sex i) + 9.1 * c.sex i

def tD_EB (c : Child) (i : ℕ) : ℚ := 15.0 * (1 - c.sex i) + 13.5 * c.sex i

def tauA_EB (c : Child) (i : ℕ) : ℚ := 15 * (1 - c.sex i) + 7.0 * c.sex i

def tauB_EB (c : Child) (i : ℕ) : ℚ := 1.5 * (1 - c.sex i) + 1.0 * c.sex i

def tauD_EB (c : Child) (i : ℕ) : ℚ := 2.0 * (1 - c.sex i) + 1.5 * c.sex i

/-- `Child::general_ode`: the three-term growth/energy shape
`A*exp(-(t-tA)/tauA) + B*exp(-0.5*((t-tB)/tauB)^2) + D*exp(-0.5*((t-tD)/tauD)^2)`,
elementwise over the cohort. -/
def general_ode (c : Child) (t Av Bv Dv tAv tBv tDv tauAv tauBv tauDv : ℕ → ℚ)
    (i : ℕ) : ℚ :=
  Av i * c.Eexp (-(t i - tAv i) / tauAv i) +
    Bv i * c.Eexp (-0.5 * ((t i - tBv i) / tauBv i) ^ 2) +
    Dv i * c.Eexp (-0.5 * ((t i - tDv i) / tauDv i) ^ 2)

/-- `Child::Growth_dynamic(t) = general_ode(t, A, B, D, tA, tB, tD, tauA, tauB, tauD)`. -/
def Growth_dynamic (c : Child) (t : ℕ → ℚ) (i : ℕ) : ℚ :=
  general_ode c t (A c) (B c) (D c) (tA c) (tB c) (tD c) (tauA c) (tauB c) (tauD c) i

/-- `Child::EB_impact(t) = general_ode(t, A_EB, B_EB, D_EB, ...)`. -/
def EB_impact (c : Child) (t : ℕ → ℚ) (i : ℕ) : ℚ :=
  general_ode c t (A_EB c) (B_EB c) (D_EB c) (tA_EB c) (tB_EB c) (tD_EB c)
    (tauA_EB c) (tauB_EB c) (tauD_EB c) i

/-- `Child::cRhoFFM(FFM) = 4.3*FFM + 837.0`. -/
def cRhoFFM (FFM : ℕ → ℚ) (i : ℕ) : ℚ := 4.3 * FFM i + 837.0

/-- `Child::cP(FFM, FM) = C/(C + FM)` with `C = 10.4 * cRhoFFM(FFM) / rhoFM`. -/
def cP (FFM FM : ℕ → ℚ) (i : ℕ) : ℚ :=
  10.4 * cRhoFFM FFM i / rhoFM / (10.4 * cRhoFFM FFM i / rhoFM + FM i)

/-- `Child::Delta(t) = deltamin + (deltamax - deltamin)*(1/(1 + (t/P)^h))`
with `h = 10.0` and `P = 12.0` set in `getParameters` (the exponent is the
program constant 10, so `pow` is exact). -/
def Delta (c : Child) (t : ℕ → ℚ) (i : ℕ) : ℚ :=
  deltamin + (deltamax c i - deltamin) * (1.0 / (1.0 + (t i / P) ^ (10 : ℕ)))

/-- BMI-category indicator `ifelse(bmiCat == 1, 1.0, 0.0)`. -/
def under (c : Child) (i : ℕ) : ℚ := if c.bmiCat i = 1 then 1 else 0

/-- BMI-category indicator `ifelse(bmiCat == 2, 1.0, 0.0)`. -/
def normales (c : Child) (i : ℕ) : ℚ := if c.bmiCat i = 2 then 1 else 0

/-- BMI-category indicator `ifelse(bmiCat == 3, 1.0, 0.0)`. -/
def over (c : Child) (i : ℕ) : ℚ := if c.bmiCat i = 3 then 1 else 0

/-- BMI-category indicator `ifelse(bmiCat == 4, 1.0, 0.0)`. -/
def obese (c : Child) (i : ℕ) : ℚ := if c.bmiCat i = 4 then 1 else 0

/-- mean reference fat-free-mass table (`referenceValues == 0` branch of `Child::FFMReference`), row `r` (age `r+2`), individual `i`. -/
def ffm_ref_mean (c : Child) (r i : ℕ) : ℚ :=
  if r = 0 then 10.134*(1-(c.sex i))+9.477*(c.sex i)
  else if r = 1 then 12.099*(1 - (c.sex i)) + 11.494*(c.sex i)
  else if r = 2 then 14.0*(1 - (c.sex i)) + 13.2*(c.sex i)
  else if r = 3 then 15.72*(1 - (c.sex i)) + 14.86*(c.sex i)
  else if r = 4 then (under c i)*(12.7942*(1-(c.sex i)) + 13.7957*(c.sex i)) + (normales c i)*(17.0238*(1-(c.sex i)) + 15.2337*(c.sex i)) + (over c i)*(19.3070*(1-(c.sex i)) + 17.7866*(c.sex i)) + (obese c i)*(22.2248*(1-(c.sex i)) + 21.2170*(c.sex i))
  else if r = 5 then (under c i)*(17.8106*(1-(c.sex i)) + 18.4835*(c.sex i)) + (normales c i)*(19.0775*(1-(c.sex i)) + 17.5198*(c.sex i)) + (over c i)*(20.3344*(1-(c.sex i)) + 18.9406*(c.sex i)) + (obese c i)*(23.1765*(1-(c.sex i)) + 22.2733*(c.sex i))
  else if r = 6 then (under c i)*(20.3597*(1-(c.sex i)) + 18.5363*(c.sex i)) + (normales c i)*(20.4774*(1-(c.sex i)) + 19.6317*(c.sex i)) + (over c i)*(22.1128*(1-(c.sex i)) + 21.6080*(c.sex i)) + (obese c i)*(25.8151*(1-(c.sex i)) + 25.1641*(c.sex i))
  else if r = 7 then (under c i)*(19.3668*(1-(c.sex i)) + 17.0314*(c.sex i)) + (normales c i)*(22.3768*(1-(c.sex i)) + 21.3680*(c.sex i)) + (over c i)*(26.7714*(1-(c.sex i)) + 26.1791*(c.sex i)) + (obese c i)*(31.3143*(1-(c.sex i)) + 30.1484*(c.sex i))
  else if r = 8 then (under c i)*(20.3271*(1-(c.sex i)) + 23.7546*(c.sex i)) + (normales c i)*(26.2985*(1-(c.sex i)) + 26.4307*(c.sex i)) + (over c i)*(29.6861*(1-(c.sex i)) + 32.5531*(c.sex i)) + (obese c i)*(36.6630*(1-(c.sex i)) + 34.1787*(c.sex i))
  else if r = 9 then (under c i)*(25.5568*(1-(c.sex i)) + 21.2704*(c.sex i)) + (normales c i)*(27.4862*(1-(c.sex i)) + 28.8484*(c.sex i)) + (over c i)*(32.8810*(1-(c.sex i)) + 34.9192*(c.sex i)) + (obese c i)*(39.1109*(1-(c.sex i)) + 39.0934*(c.sex i))
  else if r = 10 then (under c i)*(27.9345*(1-(c.sex i)) + 27.7570*(c.sex i)) + (normales c i)*(31.5756*(1-(c.sex i)) + 33.3547*(c.sex i)) + (over c i)*(36.9403*(1-(c.sex i)) + 39.1253*(c.sex i)) + (obese c i)*(44.0610*(1-(c.sex i)) + 43.9033*(c.sex i))
  else if r = 11 then (under c i)*(30.1592*(1-(c.sex i)) + 26.9376*(c.sex i)) + (normales c i)*(35.7001*(1-(c.sex i)) + 36.2985*(c.sex i)) + (over c i)*(43.5796*(1-(c.sex i)) + 41.3549*(c.sex i)) + (obese c i)*(48.3233*(1-(c.sex i)) + 47.0629*(c.sex i))
  else if r = 12 then (under c i)*(21.2736*(1-(c.sex i)) + 29.2222*(c.sex i)) + (normales c i)*(40.4352*(1-(c.sex i)) + 37.1184*(c.sex i)) + (over c i)*(47.0679*(1-(c.sex i)) + 44.8448*(c.sex i)) + (obese c i)*(56.7861*(1-(c.sex i)) + 47.6488*(c.sex i))
  else if r = 13 then (under c i)*(36.1157*(1-(c.sex i)) + 34.1242*(c.sex i)) + (normales c i)*(43.2381*(1-(c.sex i)) + 40.0629*(c.sex i)) + (over c i)*(50.7450*(1-(c.sex i)) + 45.9011*(c.sex i)) + (obese c i)*(58.3804*(1-(c.sex i)) + 50.1206*(c.sex i))
  else if r = 14 then (under c i)*(40.5041*(1-(c.sex i)) + 38.1473*(c.sex i)) + (normales c i)*(44.8314*(1-(c.sex i)) + 40.0155*(c.sex i)) + (over c i)*(54.5065*(1-(c.sex i)) + 44.8730*(c.sex i)) + (obese c i)*(60.6145*(1-(c.sex i)) + 51.3464*(c.sex i))
  else if r = 15 then (under c i)*(40.5722*(1-(c.sex i)) + 36.5821*(c.sex i)) + (normales c i)*(48.7226*(1-(c.sex i)) + 41.6682*(c.sex i)) + (over c i)*(57.3895*(1-(c.sex i)) + 48.4993*(c.sex i)) + (obese c i)*(60.3961*(1-(c.sex i)) + 53.4969*(c.sex i))
  else if r = 16 then (under c i)*(42.7400*(1-(c.sex i)) + 31.2639*(c.sex i)) + (normales c i)*(49.7806*(1-(c.sex i)) + 41.8400*(c.sex i)) + (over c i)*(58.2319*(1-(c.sex i)) + 47.9007*(c.sex i)) + (obese c i)*(61.8395*(1-(c.sex i)) + 51.3603*(c.sex i))
  else 0

/-- median reference fat-free-mass table (`referenceValues == 1` branch of `Child::FFMReference`). -/
def ffm_ref_median (c : Child) (r i : ℕ) : ℚ :=
  if r = 0 then 10.134*(1-(c.sex i))+9.477*(c.sex i)
  else if r = 1 then 12.099*(1 - (c.sex i)) + 11.494*(c.sex i)
  else if r = 2 then 14.0*(1 - (c.sex i)) + 13.2*(c.sex i)
  else if r = 3 then 15.72*(1 - (c.sex i)) + 14.86*(c.sex i)
  else if r = 4 then (under c i)*(14.4641*(1-(c.sex i)) + 13.8627*(c.sex i)) + (normales c i)*(17.1430*(1-(c.sex i)) + 15.1282*(c.sex i)) + (over c i)*(19.2280*(1-(c.sex i)) + 17.6859*(c.sex i)) + (obese c i)*(21.9501*(1-(c.sex i)) + 20.4992*(c.sex i))
  else if r = 5 then (under c i)*(16.3729*(1-(c.sex i)) + 16.6347*(c.sex i)) + (normales c i)*(18.2285*(1-(c.sex i)) + 17.2507*(c.sex i)) + (over c i)*(21.7099*(1-(c.sex i)) + 20.0341*(c.sex i)) + (obese c i)*(24.9713*(1-(c.sex i)) + 23.4162*(c.sex i))
  else if r = 6 then (under c i)*(18.0019*(1-(c.sex i)) + 17.2583*(c.sex i)) + (normales c i)*(19.9148*(1-(c.sex i)) + 19.4286*(c.sex i)) + (over c i)*(24.6404*(1-(c.sex i)) + 22.1758*(c.sex i)) + (obese c i)*(27.4774*(1-(c.sex i)) + 26.8346*(c.sex i))
  else if r = 7 then (under c i)*(19.2548*(1-(c.sex i)) + 17.5150*(c.sex i)) + (normales c i)*(21.9058*(1-(c.sex i)) + 21.2721*(c.sex i)) + (over c i)*(26.5243*(1-(c.sex i)) + 25.6952*(c.sex i)) + (obese c i)*(30.8636*(1-(c.sex i)) + 29.2900*(c.sex i))
  else if r = 8 then (under c i)*(20.3271*(1-(c.sex i)) + 23.7546*(c.sex i)) + (normales c i)*(26.2985*(1-(c.sex i)) + 26.4307*(c.sex i)) + (over c i)*(29.6861*(1-(c.sex i)) + 32.5531*(c.sex i)) + (obese c i)*(36.6630*(1-(c.sex i)) + 34.1787*(c.sex i))
  else if r = 9 then (under c i)*(25.5568*(1-(c.sex i)) + 21.2704*(c.sex i)) + (normales c i)*(27.4862*(1-(c.sex i)) + 28.8484*(c.sex i)) + (over c i)*(32.8810*(1-(c.sex i)) + 34.9192*(c.sex i)) + (obese c i)*(39.1109*(1-(c.sex i)) + 39.0934*(c.sex i))
  else if r = 10 then (under c i)*(27.9345*(1-(c.sex i)) + 27.7570*(c.sex i)) + (normales c i)*(31.5756*(1-(c.sex i)) + 33.3547*(c.sex i)) + (over c i)*(36.9403*(1-(c.sex i)) + 39.1253*(c.sex i)) + (obese c i)*(44.0610*(1-(c.sex i)) + 43.9033*(c.sex i))
  else if r = 11 then (under c i)*(30.1592*(1-(c.sex i)) + 26.9376*(c.sex i)) + (normales c i)*(35.7001*(1-(c.sex i)) + 36.2985*(c.sex i)) + (over c i)*(43.5796*(1-(c.sex i)) + 41.3549*(c.sex i)) + (obese c i)*(48.3233*(1-(c.sex i)) + 47.0629*(c.sex i))
  else if r = 12 then (under c i)*(21.2736*(1-(c.sex i)) + 29.2222*(c.sex i)) + (normales c i)*(40.4352*(1-(c.sex i)) + 37.1184*(c.sex i)) + (over c i)*(47.0679*(1-(c.sex i)) + 44.8448*(c.sex i)) + (obese c i)*(56.7861*(1-(c.sex i)) + 47.6488*(c.sex i))
  else if r = 13 then (under c i)*(36.1157*(1-(c.sex i)) + 34.1242*(c.sex i)) + (normales c i)*(43.2381*(1-(c.sex i)) + 40.0629*(c.sex i)) + (over c i)*(50.7450*(1-(c.sex i)) + 45.9011*(c.sex i)) + (obese c i)*(58.3804*(1-(c.sex i)) + 50.1206*(c.sex i))
  else if r = 14 then (under c i)*(41.8846*(1-(c.sex i)) + 38.1473*(c.sex i)) + (normales c i)*(44.8314*(1-(c.sex i)) + 40.0155*(c.sex i)) + (over c i)*(54.5065*(1-(c.sex i)) + 44.8730*(c.sex i)) + (obese c i)*(60.6145*(1-(c.sex i)) + 51.3464*(c.sex i))
  else if r = 15 then (under c i)*(40.5722*(1-(c.sex i)) + 36.5821*(c.sex i)) + (normales c i)*(48.7226*(1-(c.sex i)) + 41.6682*(c.sex i)) + (over c i)*(57.3895*(1-(c.sex i)) + 48.4993*(c.sex i)) + (obese c i)*(60.3961*(1-(c.sex i)) + 53.4969*(c.sex i))
  else if r = 16 then (under c i)*(42.7400*(1-(c.sex i)) + 31.2639*(c.sex i)) + (normales c i)*(49.7806*(1-(c.sex i)) + 41.8400*(c.sex i)) + (over c i)*(58.2319*(1-(c.sex i)) + 47.9007*(c.sex i)) + (obese c i)*(61.8395*(1-(c.sex i)) + 51.3603*(c.sex i))
  else 0

/-- mean reference fat-mass table (`referenceValues == 0` branch of `Child::FMReference`). -/
def fm_ref_mean (c : Child) (r i : ℕ) : ℚ :=
  if r = 0 then 2.456*(1-(c.sex i))+ 2.433*(c.sex i)
  else if r = 1 then 2.576*(1 - (c.sex i)) + 2.606*(c.sex i)
  else if r = 2 then 2.7*(1 - (c.sex i)) + 2.8*(c.sex i)
  else if r = 3 then 3.66*(1 - (c.sex i)) + 4.47*(c.sex i)
  else if r = 4 then (under c i)*(1.7764*(1-(c.sex i)) + 2.5951*(c.sex i)) + (normales c i)*(3.4540*(1-(c.sex i)) + 3.8303*(c.sex i)) + (over c i)*(4.8055*(1-(c.sex i)) + 5.7014*(c.sex i)) + (obese c i)*(7.9672*(1-(c.sex i)) + 9.3883*(c.sex i))
  else if r = 5 then (under c i)*(2.3398*(1-(c.sex i)) + 2.8164*(c.sex i)) + (normales c i)*(3.5859*(1-(c.sex i)) + 4.2782*(c.sex i)) + (over c i)*(5.4625*(1-(c.sex i)) + 6.5960*(c.sex i)) + (obese c i)*( 8.4350*(1-(c.sex i)) + 10.4148*(c.sex i))
  else if r = 6 then (under c i)*(3.2767*(1-(c.sex i)) + 3.0828*(c.sex i)) + (normales c i)*(4.1138*(1-(c.sex i)) + 5.2226*(c.sex i)) + (over c i)*(5.5455*(1-(c.sex i)) + 7.3667*(c.sex i)) + (obese c i)*( 9.3266*(1-(c.sex i)) + 12.0550*(c.sex i))
  else if r = 7 then (under c i)*(2.3902*(1-(c.sex i)) + 2.6538*(c.sex i)) + (normales c i)*(4.1705*(1-(c.sex i)) + 5.0218*(c.sex i)) + (over c i)*(6.6958*(1-(c.sex i)) + 8.6945*(c.sex i)) + (obese c i)*(11.5896*(1-(c.sex i)) + 14.1436*(c.sex i))
  else if r = 8 then (under c i)*(2.4479*(1-(c.sex i)) + 3.2454*(c.sex i)) + (normales c i)*(4.9982*(1-(c.sex i)) + 5.4190*(c.sex i)) + (over c i)*(7.9746*(1-(c.sex i)) + 9.1949*(c.sex i)) + (obese c i)*(16.3177*(1-(c.sex i)) + 13.9706*(c.sex i))
  else if r = 9 then (under c i)*(3.3203*(1-(c.sex i)) + 2.6392*(c.sex i)) + (normales c i)*(5.4113*(1-(c.sex i)) + 6.0374*(c.sex i)) + (over c i)*( 8.9515*(1-(c.sex i)) + 10.9333*(c.sex i)) + (obese c i)*(16.9403*(1-(c.sex i)) + 18.6393*(c.sex i))
  else if r = 10 then (under c i)*(3.4905*(1-(c.sex i)) + 3.7443*(c.sex i)) + (normales c i)*(6.3199*(1-(c.sex i)) + 7.1416*(c.sex i)) + (over c i)*(10.7410*(1-(c.sex i)) + 12.6422*(c.sex i)) + (obese c i)*(20.7120*(1-(c.sex i)) + 23.3028*(c.sex i))
  else if r = 11 then (under c i)*(3.7085*(1-(c.sex i)) + 3.2124*(c.sex i)) + (normales c i)*(7.0187*(1-(c.sex i)) + 8.4339*(c.sex i)) + (over c i)*(13.6491*(1-(c.sex i)) + 14.2744*(c.sex i)) + (obese c i)*(23.7980*(1-(c.sex i)) + 24.5466*(c.sex i))
  else if r = 12 then (under c i)*(1.9970*(1-(c.sex i)) + 3.9076*(c.sex i)) + (normales c i)*(8.1211*(1-(c.sex i)) + 8.7344*(c.sex i)) + (over c i)*(15.2322*(1-(c.sex i)) + 16.2757*(c.sex i)) + (obese c i)*(30.4881*(1-(c.sex i)) + 28.6411*(c.sex i))
  else if r = 13 then (under c i)*(4.2798*(1-(c.sex i)) + 3.8050*(c.sex i)) + (normales c i)*(8.5973*(1-(c.sex i)) + 9.8169*(c.sex i)) + (over c i)*(16.8229*(1-(c.sex i)) + 17.9753*(c.sex i)) + (obese c i)*(32.0464*(1-(c.sex i)) + 29.0900*(c.sex i))
  else if r = 14 then (under c i)*(4.6019*(1-(c.sex i)) + 4.5292*(c.sex i)) + (normales c i)*(9.1734*(1-(c.sex i)) + 9.8278*(c.sex i)) + (over c i)*(19.3477*(1-(c.sex i)) + 16.1585*(c.sex i)) + (obese c i)*(32.1754*(1-(c.sex i)) + 30.8017*(c.sex i))
  else if r = 15 then (under c i)*(4.2804*(1-(c.sex i)) + 4.3746*(c.sex i)) + (normales c i)*(10.0719*(1-(c.sex i)) + 9.8915*(c.sex i)) + (over c i)*(20.2305*(1-(c.sex i)) + 18.4581*(c.sex i)) + (obese c i)*(30.7093*(1-(c.sex i)) + 35.2589*(c.sex i))
  else if r = 16 then (under c i)*(4.9325*(1-(c.sex i)) + 3.3333*(c.sex i)) + (normales c i)*(11.1103*(1-(c.sex i)) + 9.3370*(c.sex i)) + (over c i)*(21.0289*(1-(c.sex i)) + 18.4491*(c.sex i)) + (obese c i)*(36.5275*(1-(c.sex i)) + 30.2936*(c.sex i))
  else 0

/-- median reference fat-mass table (`referenceValues == 1` branch of `Child::FMReference`). -/
def fm_ref_median (c : Child) (r i : ℕ) : ℚ :=
  if r = 0 then 2.456*(1-(c.sex i))+ 2.433*(c.sex i)
  else if r = 1 then 2.576*(1 - (c.sex i)) + 2.606*(c.sex i)
  else if r = 2 then 2.7*(1 - (c.sex i)) + 2.8*(c.sex i)
  else if r = 3 then 3.66*(1 - (c.sex i)) + 4.47*(c.sex i)
  else if r = 4 then (under c i)*(2.0359*(1-(c.sex i)) + 2.5660*(c.sex i)) + (normales c i)*(3.4642*(1-(c.sex i)) + 3.7042*(c.sex i)) + (over c i)*(4.6220*(1-(c.sex i)) + 5.6735*(c.sex i)) + (obese c i)*(7.1058*(1-(c.sex i)) + 8.7339*(c.sex i))
  else if r = 5 then (under c i)*(2.3771*(1-(c.sex i)) + 2.9560*(c.sex i)) + (normales c i)*(3.6030*(1-(c.sex i)) + 4.1865*(c.sex i)) + (over c i)*(5.5651*(1-(c.sex i)) + 6.4374*(c.sex i)) + (obese c i)*(8.0501*(1-(c.sex i)) + 9.3100*(c.sex i))
  else if r = 6 then (under c i)*(2.1231*(1-(c.sex i)) + 3.0917*(c.sex i)) + (normales c i)*(3.6729*(1-(c.sex i)) + 4.8531*(c.sex i)) + (over c i)*(5.8971*(1-(c.sex i)) + 7.0172*(c.sex i)) + (obese c i)*( 8.9372*(1-(c.sex i)) + 11.5469*(c.sex i))
  else if r = 7 then (under c i)*(2.4068*(1-(c.sex i)) + 2.9027*(c.sex i)) + (normales c i)*(4.0597*(1-(c.sex i)) + 4.8707*(c.sex i)) + (over c i)*(6.5720*(1-(c.sex i)) + 8.7112*(c.sex i)) + (obese c i)*(10.8084*(1-(c.sex i)) + 12.7559*(c.sex i))
  else if r = 8 then (under c i)*(2.4479*(1-(c.sex i)) + 3.2454*(c.sex i)) + (normales c i)*(4.9982*(1-(c.sex i)) + 5.4190*(c.sex i)) + (over c i)*(7.9746*(1-(c.sex i)) + 9.1949*(c.sex i)) + (obese c i)*(16.3177*(1-(c.sex i)) + 13.9706*(c.sex i))
  else if r = 9 then (under c i)*(3.3203*(1-(c.sex i)) + 2.6392*(c.sex i)) + (normales c i)*(5.4113*(1-(c.sex i)) + 6.0374*(c.sex i)) + (over c i)*( 8.9515*(1-(c.sex i)) + 10.9333*(c.sex i)) + (obese c i)*(16.9403*(1-(c.sex i)) + 18.6393*(c.sex i))
  else if r = 10 then (under c i)*(3.4905*(1-(c.sex i)) + 3.7443*(c.sex i)) + (normales c i)*(6.3199*(1-(c.sex i)) + 7.1416*(c.sex i)) + (over c i)*(10.7410*(1-(c.sex i)) + 12.6422*(c.sex i)) + (obese c i)*(20.7120*(1-(c.sex i)) + 23.3028*(c.sex i))
  else if r = 11 then (under c i)*(3.7085*(1-(c.sex i)) + 3.2124*(c.sex i)) + (normales c i)*(7.0187*(1-(c.sex i)) + 8.4339*(c.sex i)) + (over c i)*(13.6491*(1-(c.sex i)) + 14.2744*(c.sex i)) + (obese c i)*(23.7980*(1-(c.sex i)) + 24.5466*(c.sex i))
  else if r = 12 then (under c i)*(1.9970*(1-(c.sex i)) + 3.9076*(c.sex i)) + (normales c i)*(8.1211*(1-(c.sex i)) + 8.7344*(c.sex i)) + (over c i)*(15.2322*(1-(c.sex i)) + 16.2757*(c.sex i)) + (obese c i)*(30.4881*(1-(c.sex i)) + 28.6411*(c.sex i))
  else if r = 13 then (under c i)*(4.2798*(1-(c.sex i)) + 3.8050*(c.sex i)) + (normales c i)*(8.5973*(1-(c.sex i)) + 9.8169*(c.sex i)) + (over c i)*(16.8229*(1-(c.sex i)) + 17.9753*(c.sex i)) + (obese c i)*(32.0464*(1-(c.sex i)) + 29.0900*(c.sex i))
  else if r = 14 then (under c i)*(4.6585*(1-(c.sex i)) + 4.5292*(c.sex i)) + (normales c i)*(9.1734*(1-(c.sex i)) + 9.8278*(c.sex i)) + (over c i)*(19.3477*(1-(c.sex i)) + 16.1585*(c.sex i)) + (obese c i)*(32.1754*(1-(c.sex i)) + 30.8017*(c.sex i))
  else if r = 15 then (under c i)*(4.2804*(1-(c.sex i)) + 4.3746*(c.sex i)) + (normales c i)*(10.0719*(1-(c.sex i)) + 9.8915*(c.sex i)) + (over c i)*(20.2305*(1-(c.sex i)) + 18.4581*(c.sex i)) + (obese c i)*(30.7093*(1-(c.sex i)) + 35.2589*(c.sex i))
  else if r = 16 then (under c i)*(4.9325*(1-(c.sex i)) + 3.3333*(c.sex i)) + (normales c i)*(11.1103*(1-(c.sex i)) + 9.3370*(c.sex i)) + (over c i)*(21.0289*(1-(c.sex i)) + 18.4491*(c.sex i)) + (obese c i)*(36.5275*(1-(c.sex i)) + 30.2936*(c.sex i))
  else 0
/-- `NumericMatrix ffm_ref(17,nind)` of `Child::FFMReference`: zero-initialized,
filled from the mean table when `referenceValues == 0`, from the median table
when `referenceValues == 1`, and left all-zero otherwise. -/
def ffm_ref (c : Child) (r i : ℕ) : ℚ :=
  if c.referenceValues = 0 then ffm_ref_mean c r i
  else if c.referenceValues = 1 then ffm_ref_median c r i
  else 0

/-- `NumericMatrix fm_ref(17,nind)` of `Child::FMReference`, analogous. -/
def fm_ref (c : Child) (r i : ℕ) : ℚ :=
  if c.referenceValues = 0 then fm_ref_mean c r i
  else if c.referenceValues = 1 then fm_ref_median c r i
  else 0

/-- The interpolation loop shared verbatim by `Child::FFMReference` and
`Child::FMReference` (one individual's column `tbl`): for `t >= 18` return
row 16 (age 18); otherwise `jmin = max(floor(t), 2) - 2`,
`jmax = min(jmin+1, 17)`, `diff = t - floor(t)`, and return
`tbl[jmin] + diff*(tbl[jmax] - tbl[jmin])`. -/
def refLookup (tbl : ℕ → ℚ) (tv : ℚ) : ℚ :=
  if (18 : ℚ) ≤ tv then tbl 16
  else
    tbl (max ⌊tv⌋ 2 - 2).toNat +
      (tv - ⌊tv⌋) *
        (tbl (min (max ⌊tv⌋ 2 - 2 + 1) 17).toNat - tbl (max ⌊tv⌋ 2 - 2).toNat)

/-- `Child::FFMReference(t)`. -/
def FFMReference (c : Child) (t : ℕ → ℚ) (i : ℕ) : ℚ :=
  refLookup (fun r => ffm_ref c r i) (t i)

/-- `Child::FMReference(t)`. -/
def FMReference (c : Child) (t : ℕ → ℚ) (i : ℕ) : ℚ :=
  refLookup (fun r => fm_ref c r i) (t i)

/-- `Child::Intake(t)`.  In logistic mode the generalized-logistic curve
`A + (K - A)/pow(C + Q*exp(-B*t), 1/nu)`; in tabulated mode the row
`EIntake(timeval, _)` with `timeval = floor(365.0*(t(0) - age(0))/dt)`.
The `Rcpp::MatrixRow` accessor throws `index_out_of_bounds` when
`timeval` is negative or `>=` the row count; the throw is modelled as
`none` (spec: the lookup "must fail loudly (index-out-of-range)"). -/
def Intake (c : Child) (t : ℕ → ℚ) : Option (ℕ → ℚ) :=
  if c.generalized_logistic then
    some fun i =>
      c.A_logistic + (c.K_logistic - c.A_logistic) /
        c.Epow (c.C_logistic + c.Q_logistic * c.Eexp (-c.B_logistic * t i)) (1 / c.nu_logistic)
  else
    let timeval : ℤ := ⌊365.0 * (t 0 - c.age 0) / c.dt⌋
    if 0 ≤ timeval ∧ timeval < (c.EIntakeRows : ℤ) then
      some fun i => c.EIntake timeval.toNat i
    else none

/-- `Child::IntakeReference(t)`: the intake sustaining the reference
trajectory, with `p` and `rhoFFM` evaluated at the reference masses. -/
def IntakeReference (c : Child) (t : ℕ → ℚ) (i : ℕ) : ℚ :=
  EB_impact c t i + K c i + (22.4 + Delta c t i) * FFMReference c t i +
    (4.5 + Delta c t i) * FMReference c t i +
    230.0 / cRhoFFM (FFMReference c t) i *
      (cP (FFMReference c t) (FMReference c t) i * EB_impact c t i + Growth_dynamic c t i) +
    180.0 / rhoFM *
      ((1 - cP (FFMReference c t) (FMReference c t) i) * EB_impact c t i - Growth_dynamic c t i)

/-- `Child::Expenditure(t, FFM, FM)`: `none` exactly when the `Intake`
lookup throws. -/
def Expenditure (c : Child) (t FFM FM : ℕ → ℚ) : Option (ℕ → ℚ) :=
  (Intake c t).map fun Intakeval i =>
    let delta : ℚ := Delta c t i
    let Iref : ℚ := IntakeReference c t i
    let DeltaI : ℚ := Intakeval i - Iref
    let p : ℚ := cP FFM FM i
    let rhoFFMv : ℚ := cRhoFFM FFM i
    let growth : ℚ := Growth_dynamic c t i
    (K c i + (22.4 + delta) * FFM i + (4.5 + delta) * FM i +
        0.24 * DeltaI + (230.0 / rhoFFMv * p + 180.0 / rhoFM * (1.0 - p)) * Intakeval i +
        growth * (230.0 / rhoFFMv - 180.0 / rhoFM)) /
      (1.0 + 230.0 / rhoFFMv * p + 180.0 / rhoFM * (1.0 - p))

/-- `Child::dMass(t, FFM, FM)`: the ODE right-hand side, a pair
(row 0 = dFFM, row 1 = dFM) of the 2×nind matrix `Mass`. -/
def dMass (c : Child) (t FFM FM : ℕ → ℚ) : Option ((ℕ → ℚ) × (ℕ → ℚ)) :=
  (Expenditure c t FFM FM).bind fun expend =>
    (Intake c t).map fun intake =>
      (fun i => (1.0 * cP FFM FM i * (intake i - expend i) + Growth_dynamic c t i) / cRhoFFM FFM i,
       fun i => ((1.0 - cP FFM FM i) * (intake i - expend i) - Growth_dynamic c t i) / rhoFM)

/-- One column of the trajectory: the per-individual masses and ages and the
scalar elapsed time at a given step. -/
structure ChState where
  ffm : ℕ → ℚ
  fm : ℕ → ℚ
  ageV : ℕ → ℚ
  time : ℚ

/-- all-zero state, used only as the `Option.getD` default. -/
def ChState.zero : ChState := ⟨fun _ => 0, fun _ => 0, fun _ => 0, 0⟩

/-- One iteration of the RK4 loop body of `Child::rk4` (lines 361-379):
`k1 = dMass(age, FFM, FM)`,
`k2 = dMass(age + 0.5*dt/365, FFM + 0.5*k1(0,_), FM + 0.5*k1(1,_))`,
`k3 = dMass(age + 0.5*dt/365, FFM + 0.5*k2(0,_), FM + 0.5*k2(1,_))`,
`k4 = dMass(age + dt/365, FFM + k3(0,_), FM + k3(1,_))`,
`FFM' = FFM + dt*(k1 + 2*k2 + 2*k3 + k4)(0,_)/6` (and likewise FM),
with `age' = age + dt/365` and `time' = time + dt`. -/
def stepOnce (c : Child) (s : ChState) : Option ChState :=
  (dMass c s.ageV s.ffm s.fm).bind fun k1 =>
    (dMass c (fun i => s.ageV i + 0.5 * c.dt / 365.0)
        (fun i => s.ffm i + 0.5 * k1.1 i) (fun i => s.fm i + 0.5 * k1.2 i)).bind fun k2 =>
      (dMass c (fun i => s.ageV i + 0.5 * c.dt / 365.0)
          (fun i => s.ffm i + 0.5 * k2.1 i) (fun i => s.fm i + 0.5 * k2.2 i)).bind fun k3 =>
        (dMass c (fun i => s.ageV i + c.dt / 365.0)
            (fun i => s.ffm i + k3.1 i) (fun i => s.fm i + k3.2 i)).bind fun k4 =>
          some { ffm := fun i => s.ffm i + c.dt * (k1.1 i + 2.0 * k2.1 i + 2.0 * k3.1 i + k4.1 i) / 6.0,
                 fm := fun i => s.fm i + c.dt * (k1.2 i + 2.0 * k2.2 i + 2.0 * k3.2 i + k4.2 i) / 6.0,
                 ageV := fun i => s.ageV i + c.dt / 365.0,
                 time := s.time + c.dt }

/-- Modelled from the spec: the RK4 step of spec section 4.7's pseudocode, whose
stage-mass perturbations are scaled by `dt`
(`k2 = dMass(age+0.5dt/365, FFM+0.5*dt*k1.FFM, FM+0.5*dt*k1.FM)`, etc.).
This is the standard textbook RK4; it is kept separate from `stepOnce`
(translated from the code) so the two can be compared. -/
def stepOnceSpec (c : Child) (s : ChState) : Option ChState :=
  (dMass c s.ageV s.ffm s.fm).bind fun k1 =>
    (dMass c (fun i => s.ageV i + 0.5 * c.dt / 365.0)
        (fun i => s.ffm i + 0.5 * c.dt * k1.1 i) (fun i => s.fm i + 0.5 * c.dt * k1.2 i)).bind fun k2 =>
      (dMass c (fun i => s.ageV i + 0.5 * c.dt / 365.0)
          (fun i => s.ffm i + 0.5 * c.dt * k2.1 i) (fun i => s.fm i + 0.5 * c.dt * k2.2 i)).bind fun k3 =>
        (dMass c (fun i => s.ageV i + c.dt / 365.0)
            (fun i => s.ffm i + c.dt * k3.1 i) (fun i => s.fm i + c.dt * k3.2 i)).bind fun k4 =>
          some { ffm := fun i => s.ffm i + c.dt * (k1.1 i + 2.0 * k2.1 i + 2.0 * k3.1 i + k4.1 i) / 6.0,
                 fm := fun i => s.fm i + c.dt * (k1.2 i + 2.0 * k2.2 i + 2.0 * k3.2 i + k4.2 i) / 6.0,
                 ageV := fun i => s.ageV i + c.dt / 365.0,
                 time := s.time + c.dt }

/-- The trajectory: column 0 is the initial cohort state
(`ModelFFM(_,0) = FFM` etc., `TIME(0) = 0`), and each later column is one
RK4 update of the previous one.  `none` once any step's intake lookup
throws. -/
def states (c : Child) : ℕ → Option ChState
  | 0 => some { ffm := c.FFM, fm := c.FM, ageV := c.age, time := 0.0 }
  | n + 1 => (states c n).bind (stepOnce c)

/-- The labeled output bundle of `Child::rk4` (`List::create(...)`), with the
array shape (`nind` rows, `nsims+1` columns) recorded explicitly. -/
structure RkOut where
  nind : ℕ
  ncols : ℕ
  Time : ℕ → ℚ
  Age : ℕ → ℕ → ℚ
  Fat_Free_Mass : ℕ → ℕ → ℚ
  Fat_Mass : ℕ → ℕ → ℚ
  Body_Weight : ℕ → ℕ → ℚ
  Correct_Values : Bool
  Model_Type : String

/-- `Child::rk4(days)`: `nsims = floor(days/dt)` steps; every column of
`Body_Weight` is set to `ModelFFM + ModelFM`; `Correct_Values` is the local
`bool correctVals = true`, never updated in the loop. -/
def rk4 (c : Child) (days : ℚ) : Option RkOut :=
  match states c ((⌊days / c.dt⌋).toNat) with
  | none => none
  | some _ =>
    some { nind := c.nind
           ncols := (⌊days / c.dt⌋).toNat + 1
           Time := fun s => ((states c s).getD ChState.zero).time
           Age := fun i s => ((states c s).getD ChState.zero).ageV i
           Fat_Free_Mass := fun i s => ((states c s).getD ChState.zero).ffm i
           Fat_Mass := fun i s => ((states c s).getD ChState.zero).fm i
           Body_Weight := fun i s =>
             ((states c s).getD ChState.zero).ffm i + ((states c s).getD ChState.zero).fm i
           Correct_Values := true
           Model_Type := "Children" }

/-- the same child with only `referenceValues` replaced. -/
def setRef (c : Child) (r : ℚ) : Child := { c with referenceValues := r }

/-- stub for the abstracted `exp`: the constant function 1, used to build
closed instances of `Child` for concrete evaluations. -/
def Eone : ℚ → ℚ := fun _ => 1

/-- a concrete one-individual logistic-intake cohort (male, age 10, normal
BMI category, FFM 25 kg, FM 8 kg, `dt = 2`), with the abstracted `exp` and
`pow` stubbed by constant 1 so that every model function evaluates. -/
def chL : Child :=
  { nind := 1, age := fun _ => 10, sex := fun _ => 0, bmiCat := fun _ => 2,
    FFM := fun _ => 25, FM := fun _ => 8, dt := 2, check := true,
    referenceValues := 0, generalized_logistic := true,
    K_logistic := 1800, A_logistic := 500, Q_logistic := 1, B_logistic := 0,
    nu_logistic := 1, C_logistic := 1,
    EIntake := fun _ _ => 0, EIntakeRows := 0,
    Eexp := Eone, Epow := fun _ _ => 1 }

/-- the initial trajectory column of `chL`. -/
def st0 : ChState := { ffm := chL.FFM, fm := chL.FM, ageV := chL.age, time := 0 }

/-- the `rk4` output bundle of `chL` for a zero-day horizon. -/
def chL_out : RkOut :=
  (rk4 chL 0).getD
    ⟨0, 0, fun _ => 0, fun _ _ => 0, fun _ _ => 0, fun _ _ => 0, fun _ _ => 0, false, ""⟩

/-- a concrete one-individual tabulated-intake cohort: age 10, `dt = 1`, and
a 2-row intake table. -/
def chT : Child :=
  { nind := 1, age := fun _ => 10, sex := fun _ => 0, bmiCat := fun _ => 2,
    FFM := fun _ => 25, FM := fun _ => 8, dt := 1, check := true,
    referenceValues := 0, generalized_logistic := false,
    K_logistic := 0, A_logistic := 0, Q_logistic := 0, B_logistic := 0,
    nu_logistic := 1, C_logistic := 0,
    EIntake := fun _ _ => 1500, EIntakeRows := 2,
    Eexp := Eone, Epow := fun _ _ => 1 }

/-- a one-individual cohort (male, normal BMI category, starting age 6) with
the abstracted `exp` kept as a parameter `E` and the reference-value set `r`:
used to compare the mean- and median-table configurations. -/
def chC7 (E : ℚ → ℚ) (r : ℚ) : Child :=
  { nind := 1, age := fun _ => 6, sex := fun _ => 0, bmiCat := fun _ => 2,
    FFM := fun _ => 20, FM := fun _ => 5, dt := 1, check := true,
    referenceValues := r, generalized_logistic := true,
    K_logistic := 1800, A_logistic := 500, Q_logistic := 1, B_logistic := 0,
    nu_logistic := 1, C_logistic := 1,
    EIntake := fun _ _ => 0, EIntakeRows := 0,
    Eexp := E, Epow := fun _ _ => 1 }

/-! ## Helper lemmas -/

theorem under_eq_zero (c : Child) (i : ℕ) (h : c.bmiCat i ≠ 1) : under c i = 0 := by
  simp [under, h]

theorem normales_eq_zero (c : Child) (i : ℕ) (h : c.bmiCat i ≠ 2) : normales c i = 0 := by
  simp [normales, h]

theorem over_eq_zero (c : Child) (i : ℕ) (h : c.bmiCat i ≠ 3) : over c i = 0 := by
  simp [over, h]

theorem obese_eq_zero (c : Child) (i : ℕ) (h : c.bmiCat i ≠ 4) : obese c i = 0 := by
  simp [obese, h]

set_option maxHeartbeats 2000000 in
theorem ffm_ref_mean_eq_zero (c : Child) (r i : ℕ) (hu : under c i = 0)
    (hn : normales c i = 0) (ho : over c i = 0) (hb : obese c i = 0)
    (hr4 : 4 ≤ r) (hr16 : r ≤ 16) : ffm_ref_mean c r i = 0 := by
  interval_cases r <;> simp [ffm_ref_mean, hu, hn, ho, hb]

set_option maxHeartbeats 2000000 in
theorem ffm_ref_median_eq_zero (c : Child) (r i : ℕ) (hu : under c i = 0)
    (hn : normales c i = 0) (ho : over c i = 0) (hb : obese c i = 0)
    (hr4 : 4 ≤ r) (hr16 : r ≤ 16) : ffm_ref_median c r i = 0 := by
  interval_cases r <;> simp [ffm_ref_median, hu, hn, ho, hb]

set_option maxHeartbeats 2000000 in
theorem fm_ref_mean_eq_zero (c : Child) (r i : ℕ) (hu : under c i = 0)
    (hn : normales c i = 0) (ho : over c i = 0) (hb : obese c i = 0)
    (hr4 : 4 ≤ r) (hr16 : r ≤ 16) : fm_ref_mean c r i = 0 := by
  interval_cases r <;> simp [fm_ref_mean, hu, hn, ho, hb]

set_option maxHeartbeats 2000000 in
theorem fm_ref_median_eq_zero (c : Child) (r i : ℕ) (hu : under c i = 0)
    (hn : normales c i = 0) (ho : over c i = 0) (hb : obese c i = 0)
    (hr4 : 4 ≤ r) (hr16 : r ≤ 16) : fm_ref_median c r i = 0 := by
  interval_cases r <;> simp [fm_ref_median, hu, hn, ho, hb]

theorem ffm_ref_eq_zero (c : Child) (r i : ℕ) (hu : under c i = 0)
    (hn : normales c i = 0) (ho : over c i = 0) (hb : obese c i = 0)
    (hr4 : 4 ≤ r) (hr16 : r ≤ 16) : ffm_ref c r i = 0 := by
  unfold ffm_ref
  split_ifs
  · exact ffm_ref_mean_eq_zero c r i hu hn ho hb hr4 hr16
  · exact ffm_ref_median_eq_zero c r i hu hn ho hb hr4 hr16
  · rfl

theorem fm_ref_eq_zero (c : Child) (r i : ℕ) (hu : under c i = 0)
    (hn : normales c i = 0) (ho : over c i = 0) (hb : obese c i = 0)
    (hr4 : 4 ≤ r) (hr16 : r ≤ 16) : fm_ref c r i = 0 := by
  unfold fm_ref
  split_ifs
  · exact fm_ref_mean_eq_zero c r i hu hn ho hb hr4 hr16
  · exact fm_ref_median_eq_zero c r i hu hn ho hb hr4 hr16
  · rfl

/-- if every row in 4..16 is zero, the lookup at any age `tv ≥ 6` returns
zero (only rows 4..16 are touched there). -/
theorem refLookup_eq_zero (tbl : ℕ → ℚ) (tv : ℚ)
    (hz : ∀ r, 4 ≤ r → r ≤ 16 → tbl r = 0) (h6 : (6 : ℚ) ≤ tv) : refLookup tbl tv = 0 := by
  unfold refLookup
  split_ifs with h18
  · exact hz 16 (by norm_num) (by norm_num)
  · have hf : (6 : ℤ) ≤ ⌊tv⌋ := Int.le_floor.mpr (by exact_mod_cast h6)
    have hf18 : ⌊tv⌋ < 18 := Int.floor_lt.mpr (by exact_mod_cast not_le.mp h18)
    have hm : max ⌊tv⌋ 2 = ⌊tv⌋ := max_eq_left (by omega)
    have h1 : tbl (max ⌊tv⌋ 2 - 2).toNat = 0 := by
      apply hz <;> rw [hm] <;> omega
    have h2 : tbl (min (max ⌊tv⌋ 2 - 2 + 1) 17).toNat = 0 := by
      apply hz <;> rw [hm] <;>
        rcases min_choice (⌊tv⌋ - 2 + 1) 17 with h | h <;> rw [h] <;> omega
    rw [h1, h2]
    ring
theorem Intake_setRef (c : Child) (r : ℚ) (t : ℕ → ℚ) :
    Intake (setRef c r) t = Intake c t := rfl

theorem dMass_isSome (c : Child) (t F M : ℕ → ℚ) :
    (dMass c t F M).isSome = (Intake c t).isSome := by
  unfold dMass Expenditure
  rcases h : Intake c t with _ | Iv <;> rfl

theorem dMass_isSome_eq_setRef (c : Child) (r : ℚ) (t F M Fp Mp : ℕ → ℚ) :
    (dMass (setRef c r) t Fp Mp).isSome = (dMass c t F M).isSome := by
  rw [dMass_isSome, dMass_isSome, Intake_setRef]

theorem stepOnce_setRef_ageV (c : Child) (r : ℚ) (s sp : ChState)
    (hage : sp.ageV = s.ageV) :
    (stepOnce (setRef c r) sp).map ChState.ageV = (stepOnce c s).map ChState.ageV := by
  unfold stepOnce
  rw [hage, show (setRef c r).dt = c.dt from rfl]
  rcases h1 : dMass c s.ageV s.ffm s.fm with _ | k1
  · have h1p : dMass (setRef c r) s.ageV sp.ffm sp.fm = none := by
      have e := dMass_isSome_eq_setRef c r s.ageV s.ffm s.fm sp.ffm sp.fm
      rw [h1] at e
      exact Option.not_isSome_iff_eq_none.mp (by simp [e])
    rw [h1p]
    simp
  · have e1 : (dMass (setRef c r) s.ageV sp.ffm sp.fm).isSome = true := by
      rw [dMass_isSome_eq_setRef c r s.ageV s.ffm s.fm sp.ffm sp.fm, h1]
      rfl
    rcases Option.isSome_iff_exists.mp e1 with ⟨k1p, h1p⟩
    rw [h1p]
    simp only [Option.some_bind]
    rcases h2 : dMass c (fun i => s.ageV i + 0.5 * c.dt / 365.0)
        (fun i => s.ffm i + 0.5 * k1.1 i) (fun i => s.fm i + 0.5 * k1.2 i) with _ | k2
    · have h2p : dMass (setRef c r) (fun i => s.ageV i + 0.5 * c.dt / 365.0)
          (fun i => sp.ffm i + 0.5 * k1p.1 i) (fun i => sp.fm i + 0.5 * k1p.2 i) = none := by
        have e := dMass_isSome_eq_setRef c r (fun i => s.ageV i + 0.5 * c.dt / 365.0)
          (fun i => s.ffm i + 0.5 * k1.1 i) (fun i => s.fm i + 0.5 * k1.2 i)
          (fun i => sp.ffm i + 0.5 * k1p.1 i) (fun i => sp.fm i + 0.5 * k1p.2 i)
        rw [h2] at e
        exact Option.not_isSome_iff_eq_none.mp (by simp [e])
      rw [h2p]
      simp
    · have e2 : (dMass (setRef c r) (fun i => s.ageV i + 0.5 * c.dt / 365.0)
          (fun i => sp.ffm i + 0.5 * k1p.1 i) (fun i => sp.fm i + 0.5 * k1p.2 i)).isSome = true := by
        rw [dMass_isSome_eq_setRef c r (fun i => s.ageV i + 0.5 * c.dt / 365.0)
          (fun i => s.ffm i + 0.5 * k1.1 i) (fun i => s.fm i + 0.5 * k1.2 i)
          (fun i => sp.ffm i + 0.5 * k1p.1 i) (fun i => sp.fm i + 0.5 * k1p.2 i), h2]
        rfl
      rcases Option.isSome_iff_exists.mp e2 with ⟨k2p, h2p⟩
      rw [h2p]
      simp only [Option.some_bind]
      rcases h3 : dMass c (fun i => s.ageV i + 0.5 * c.dt / 365.0)
          (fun i => s.ffm i + 0.5 * k2.1 i) (fun i => s.fm i + 0.5 * k2.2 i) with _ | k3
      · have h3p : dMass (setRef c r) (fun i => s.ageV i + 0.5 * c.dt / 365.0)
            (fun i => sp.ffm i + 0.5 * k2p.1 i) (fun i => sp.fm i + 0.5 * k2p.2 i) = none := by
          have e := dMass_isSome_eq_setRef c r (fun i => s.ageV i + 0.5 * c.dt / 365.0)
            (fun i => s.ffm i + 0.5 * k2.1 i) (fun i => s.fm i + 0.5 * k2.2 i)
            (fun i => sp.ffm i + 0.5 * k2p.1 i) (fun i => sp.fm i + 0.5 * k2p.2 i)
          rw [h3] at e
          exact Option.not_isSome_iff_eq_none.mp (by simp [e])
        rw [h3p]
        simp
      · have e3 : (dMass (setRef c r) (fun i => s.ageV i + 0.5 * c.dt / 365.0)
            (fun i => sp.ffm i + 0.5 * k2p.1 i) (fun i => sp.fm i + 0.5 * k2p.2 i)).isSome = true := by
          rw [dMass_isSome_eq_setRef c r (fun i => s.ageV i + 0.5 * c.dt / 365.0)
            (fun i => s.ffm i + 0.5 * k2.1 i) (fun i => s.fm i + 0.5 * k2.2 i)
            (fun i => sp.ffm i + 0.5 * k2p.1 i) (fun i => sp.fm i + 0.5 * k2p.2 i), h3]
          rfl
        rcases Option.isSome_iff_exists.mp e3 with ⟨k3p, h3p⟩
        rw [h3p]
        simp only [Option.some_bind]
        rcases h4 : dMass c (fun i => s.ageV i + c.dt / 365.0)
            (fun i => s.ffm i + k3.1 i) (fun i => s.fm i + k3.2 i) with _ | k4
        · have h4p : dMass (setRef c r) (fun i => s.ageV i + c.dt / 365.0)
              (fun i => sp.ffm i + k3p.1 i) (fun i => sp.fm i + k3p.2 i) = none := by
            have e := dMass_isSome_eq_setRef c r (fun i => s.ageV i + c.dt / 365.0)
              (fun i => s.ffm i + k3.1 i) (fun i => s.fm i + k3.2 i)
              (fun i => sp.ffm i + k3p.1 i) (fun i => sp.fm i + k3p.2 i)
            rw [h4] at e
            exact Option.not_isSome_iff_eq_none.mp (by simp [e])
          rw [h4p]
          simp
        · have e4 : (dMass (setRef c r) (fun i => s.ageV i + c.dt / 365.0)
              (fun i => sp.ffm i + k3p.1 i) (fun i => sp.fm i + k3p.2 i)).isSome = true := by
            rw [dMass_isSome_eq_setRef c r (fun i => s.ageV i + c.dt / 365.0)
              (fun i => s.ffm i + k3.1 i) (fun i => s.fm i + k3.2 i)
              (fun i => sp.ffm i + k3p.1 i) (fun i => sp.fm i + k3p.2 i), h4]
            rfl
          rcases Option.isSome_iff_exists.mp e4 with ⟨k4p, h4p⟩
          rw [h4p]
          simp

theorem states_setRef_ageV (c : Child) (r : ℚ) (n : ℕ) :
    (states (setRef c r) n).map ChState.ageV = (states c n).map ChState.ageV := by
  induction n with
  | zero => rfl
  | succ n ih =>
    simp only [states]
    rcases hc : states c n with _ | s
    · rcases hcr : states (setRef c r) n with _ | sp
      · simp
      · rw [hc, hcr] at ih
        simp at ih
    · rcases hcr : states (setRef c r) n with _ | sp
      · rw [hc, hcr] at ih
        simp at ih
      · rw [hc, hcr] at ih
        simp only [Option.map_some', Option.some.injEq] at ih
        simp only [Option.some_bind]
        exact stepOnce_setRef_ageV c r s sp ih

theorem states_setRef_isSome (c : Child) (r : ℚ) (n : ℕ) :
    (states (setRef c r) n).isSome = (states c n).isSome := by
  have h := states_setRef_ageV c r n
  rcases h1 : states c n with _ | s <;> rcases h2 : states (setRef c r) n with _ | sp <;>
    rw [h1, h2] at h <;> simp_all

theorem rk4_isSome_eq_states (c : Child) (days : ℚ) :
    (rk4 c days).isSome = (states c ((⌊days / c.dt⌋).toNat)).isSome := by
  rcases hst : states c ((⌊days / c.dt⌋).toNat) with _ | s <;>
    unfold rk4 <;> rw [hst] <;> rfl

/-! ## C3 -/

/-- C3 counterexample: the claim asserts `0 < cP(FFM,FM) < 1` for every
`FFM > 0` and `FM ≥ 0`, but at the admissible input `FFM = 1`, `FM = 0` the
partition coefficient equals exactly 1, so the strict upper bound fails. -/
theorem cP_eq_one_at_zero_fm :
    (0 : ℚ) < 1 ∧ (0 : ℚ) ≤ 0 ∧ cP (fun _ => 1) (fun _ => 0) 0 = 1 := by
  refine ⟨one_pos, le_refl 0, ?_⟩
  norm_num [cP, cRhoFFM, rhoFM]

/-- C3 (amended): for `FFM > 0` the coefficient `cP(FFM,FM) = C/(C+FM)` with
`C = 10.4*(4.3*FFM + 837)/9400` lies strictly between 0 and 1 when `FM > 0`,
and equals exactly 1 when `FM = 0`. -/
theorem cP_strict_bounds (FFM FM : ℕ → ℚ) (i : ℕ) (hF : 0 < FFM i) :
    (0 < FM i → 0 < cP FFM FM i ∧ cP FFM FM i < 1) ∧
    (FM i = 0 → cP FFM FM i = 1) := by
  have hC : 0 < 10.4 * cRhoFFM FFM i / rhoFM := by
    have h1 : (0 : ℚ) < 4.3 * FFM i + 837.0 := by nlinarith
    unfold cRhoFFM rhoFM
    positivity
  constructor
  · intro hM
    unfold cP
    constructor
    · exact div_pos hC (by linarith)
    · rw [div_lt_one (by linarith)]
      linarith
  · intro hM
    unfold cP
    rw [hM, add_zero, div_self (ne_of_gt hC)]

/-- witness for C3 (amended) at `FFM = 1`, `FM = 1`. -/
theorem cP_strict_bounds_witness :
    0 < cP (fun _ => (1 : ℚ)) (fun _ => 1) 0 ∧ cP (fun _ => (1 : ℚ)) (fun _ => 1) 0 < 1 :=
  (cP_strict_bounds (fun _ => 1) (fun _ => 1) 0 (by norm_num)).1 (by norm_num)

/-! ## C9 -/

/-- C9: for an individual whose BMI category is outside {1,2,3,4}, all four
category indicators are 0, and for any age `t ≥ 6` both reference lookups
silently return 0 (every category-gated table row contributes zero),
instead of rejecting the invalid category. -/
theorem reference_zero_for_invalid_bmiCat (c : Child) (t : ℕ → ℚ) (i : ℕ)
    (h1 : c.bmiCat i ≠ 1) (h2 : c.bmiCat i ≠ 2) (h3 : c.bmiCat i ≠ 3)
    (h4 : c.bmiCat i ≠ 4) (ht : (6 : ℚ) ≤ t i) :
    under c i = 0 ∧ normales c i = 0 ∧ over c i = 0 ∧ obese c i = 0 ∧
      FFMReference c t i = 0 ∧ FMReference c t i = 0 := by
  have hu := under_eq_zero c i h1
  have hn := normales_eq_zero c i h2
  have ho := over_eq_zero c i h3
  have hb := obese_eq_zero c i h4
  refine ⟨hu, hn, ho, hb, ?_, ?_⟩
  · exact refLookup_eq_zero _ _ (fun r hr4 hr16 => ffm_ref_eq_zero c r i hu hn ho hb hr4 hr16) ht
  · exact refLookup_eq_zero _ _ (fun r hr4 hr16 => fm_ref_eq_zero c r i hu hn ho hb hr4 hr16) ht

/-- witness for C9: a child with BMI category 7 at age 10. -/
theorem reference_zero_for_invalid_bmiCat_witness :
    FFMReference { chL with bmiCat := fun _ => 7 } (fun _ => 10) 0 = 0 ∧
      FMReference { chL with bmiCat := fun _ => 7 } (fun _ => 10) 0 = 0 := by
  have h := reference_zero_for_invalid_bmiCat { chL with bmiCat := fun _ => 7 }
    (fun _ => 10) 0 (by norm_num) (by norm_num) (by norm_num) (by norm_num) (by norm_num)
  exact ⟨h.2.2.2.2.1, h.2.2.2.2.2⟩

/-! ## C10 -/

/-- C10: when `referenceValues` is neither 0 nor 1, both table-filling
branches are skipped, the zero-initialized 17-row reference matrix is kept,
and both reference lookups return 0 for every individual and every age,
with no error raised: whether the simulation completes is unchanged
relative to a valid configuration (only the intake lookup can abort a run,
and it does not read `referenceValues`). -/
theorem reference_zero_for_invalid_referenceValues (c : Child) (t : ℕ → ℚ) (i : ℕ)
    (h0 : c.referenceValues ≠ 0) (h1 : c.referenceValues ≠ 1) :
    FFMReference c t i = 0 ∧ FMReference c t i = 0 ∧
      ∀ days : ℚ, (rk4 c days).isSome = (rk4 (setRef c 0) days).isSome := by
  have hffm : ∀ r, ffm_ref c r i = 0 := by
    intro r; unfold ffm_ref; rw [if_neg h0, if_neg h1]
  have hfm : ∀ r, fm_ref c r i = 0 := by
    intro r; unfold fm_ref; rw [if_neg h0, if_neg h1]
  refine ⟨?_, ?_, ?_⟩
  · simp only [FFMReference, refLookup]
    split_ifs <;> simp [hffm]
  · simp only [FMReference, refLookup]
    split_ifs <;> simp [hfm]
  · intro days
    rw [rk4_isSome_eq_states, rk4_isSome_eq_states,
      show (setRef c 0).dt = c.dt from rfl, states_setRef_isSome]

/-- witness for C10: `referenceValues = 2`. -/
theorem reference_zero_for_invalid_referenceValues_witness :
    FFMReference { chL with referenceValues := 2 } (fun _ => 10) 0 = 0 ∧
      FMReference { chL with referenceValues := 2 } (fun _ => 10) 0 = 0 := by
  have h := reference_zero_for_invalid_referenceValues { chL with referenceValues := 2 }
    (fun _ => 10) 0 (by norm_num) (by norm_num)
  exact ⟨h.1, h.2.1⟩

/-! ## C4 -/

theorem refLookup_ge18 (tbl : ℕ → ℚ) (tv : ℚ) (h : (18 : ℚ) ≤ tv) :
    refLookup tbl tv = tbl 16 := by
  simp [refLookup, h]

/-- for ages below 18 the lookup interpolates between rows
`r = clamp(floor(t), 2, 17) - 2` and `r + 1` with fraction `t - floor(t)`
(on this range the code's `max(floor t, 2)` agrees with the clamp and
`min(jmin+1, 17)` is just `jmin + 1`). -/
theorem refLookup_lt18 (tbl : ℕ → ℚ) (tv : ℚ) (h : tv < 18) :
    refLookup tbl tv =
      tbl ((min (max ⌊tv⌋ 2) 17 - 2).toNat) +
        (tv - ⌊tv⌋) *
          (tbl ((min (max ⌊tv⌋ 2) 17 - 2).toNat + 1) -
            tbl ((min (max ⌊tv⌋ 2) 17 - 2).toNat)) := by
  have hfl : ⌊tv⌋ < 18 := Int.floor_lt.mpr (by exact_mod_cast h)
  have hmax : max ⌊tv⌋ 2 ≤ 17 := max_le (by omega) (by norm_num)
  have h2le : (2 : ℤ) ≤ max ⌊tv⌋ 2 := le_max_right _ _
  have e1 : min (max ⌊tv⌋ 2) 17 = max ⌊tv⌋ 2 := min_eq_left hmax
  have e2 : min (max ⌊tv⌋ 2 - 2 + 1) 17 = max ⌊tv⌋ 2 - 2 + 1 := min_eq_left (by omega)
  have e3 : (max ⌊tv⌋ 2 - 2 + 1).toNat = (max ⌊tv⌋ 2 - 2).toNat + 1 := by omega
  unfold refLookup
  rw [if_neg (not_le.mpr h), e2, e3, e1]

theorem refLookup_at_integer_ten (tbl : ℕ → ℚ) : refLookup tbl 10 = tbl 8 := by
  rw [refLookup_lt18 tbl 10 (by norm_num)]
  have hf : ⌊(10 : ℚ)⌋ = 10 := by rw [Int.floor_eq_iff]; norm_num
  rw [hf]
  have h8 : ((min (max (10 : ℤ) 2) 17 - 2).toNat) = 8 := by decide
  rw [h8]
  norm_num

theorem refLookup_at_half_ten (tbl : ℕ → ℚ) :
    refLookup tbl 10.5 = (tbl 8 + tbl 9) / 2 := by
  rw [refLookup_lt18 tbl 10.5 (by norm_num)]
  have hf : ⌊(10.5 : ℚ)⌋ = 10 := by rw [Int.floor_eq_iff]; norm_num
  rw [hf]
  have h8 : ((min (max (10 : ℤ) 2) 17 - 2).toNat) = 8 := by decide
  rw [h8]
  push_cast
  ring

/-- C4: reference lookups clamp ages at or above 18 to the age-18 row
(index 16), and below 18 interpolate linearly between rows
`r = clamp(floor t, 2, 17) - 2` and `r + 1` with fraction `t - floor t`;
in particular at the integer age 10 they return row 8 (the age-10 row)
exactly, and at age 10.5 the midpoint of rows 8 and 9 (ages 10 and 11). -/
theorem reference_interpolation (c : Child) (t : ℕ → ℚ) (i : ℕ) :
    ((18 : ℚ) ≤ t i →
      FFMReference c t i = ffm_ref c 16 i ∧ FMReference c t i = fm_ref c 16 i) ∧
    (t i < 18 →
      FFMReference c t i =
        ffm_ref c ((min (max ⌊t i⌋ 2) 17 - 2).toNat) i +
          (t i - ⌊t i⌋) *
            (ffm_ref c ((min (max ⌊t i⌋ 2) 17 - 2).toNat + 1) i -
              ffm_ref c ((min (max ⌊t i⌋ 2) 17 - 2).toNat) i) ∧
      FMReference c t i =
        fm_ref c ((min (max ⌊t i⌋ 2) 17 - 2).toNat) i +
          (t i - ⌊t i⌋) *
            (fm_ref c ((min (max ⌊t i⌋ 2) 17 - 2).toNat + 1) i -
              fm_ref c ((min (max ⌊t i⌋ 2) 17 - 2).toNat) i)) ∧
    (FFMReference c (fun _ => 10) i = ffm_ref c 8 i ∧
      FMReference c (fun _ => 10) i = fm_ref c 8 i) ∧
    (FFMReference c (fun _ => 10.5) i = (ffm_ref c 8 i + ffm_ref c 9 i) / 2 ∧
      FMReference c (fun _ => 10.5) i = (fm_ref c 8 i + fm_ref c 9 i) / 2) := by
  refine ⟨fun h => ⟨?_, ?_⟩, fun h => ⟨?_, ?_⟩, ⟨?_, ?_⟩, ⟨?_, ?_⟩⟩
  · exact refLookup_ge18 (fun r => ffm_ref c r i) (t i) h
  · exact refLookup_ge18 (fun r => fm_ref c r i) (t i) h
  · exact refLookup_lt18 (fun r => ffm_ref c r i) (t i) h
  · exact refLookup_lt18 (fun r => fm_ref c r i) (t i) h
  · exact refLookup_at_integer_ten (fun r => ffm_ref c r i)
  · exact refLookup_at_integer_ten (fun r => fm_ref c r i)
  · exact refLookup_at_half_ten (fun r => ffm_ref c r i)
  · exact refLookup_at_half_ten (fun r => fm_ref c r i)

/-- witness for C4 on the concrete cohort `chL`, at ages 20 and 10.5. -/
theorem reference_interpolation_witness :
    FFMReference chL (fun _ => 20) 0 = ffm_ref chL 16 0 ∧
      FFMReference chL (fun _ => 10.5) 0 = (ffm_ref chL 8 0 + ffm_ref chL 9 0) / 2 :=
  ⟨((reference_interpolation chL (fun _ => 20) 0).1 (by norm_num)).1,
   (reference_interpolation chL (fun _ => 10.5) 0).2.2.2.1⟩

/-! ## C2 -/

/-- C2: in tabulated mode, `Intake(t)` looks up the single row
`timeval = floor(365*(t[0] - age[0])/dt)`, shared by all individuals; when
that row index reaches or exceeds the table's row count the lookup fails
with the (modelled) `Rcpp` index-out-of-range error instead of reading out
of bounds or wrapping. -/
theorem Intake_table_row_and_bounds (c : Child) (t : ℕ → ℚ)
    (hmode : c.generalized_logistic = false) :
    (0 ≤ ⌊365.0 * (t 0 - c.age 0) / c.dt⌋ →
      ⌊365.0 * (t 0 - c.age 0) / c.dt⌋ < (c.EIntakeRows : ℤ) →
      Intake c t = some fun i => c.EIntake (⌊365.0 * (t 0 - c.age 0) / c.dt⌋).toNat i) ∧
    ((c.EIntakeRows : ℤ) ≤ ⌊365.0 * (t 0 - c.age 0) / c.dt⌋ → Intake c t = none) := by
  constructor
  · intro h0 hlt
    simp only [Intake, hmode, Bool.false_eq_true, if_false]
    rw [if_pos ⟨h0, hlt⟩]
  · intro hge
    simp only [Intake, hmode, Bool.false_eq_true, if_false]
    rw [if_neg]
    exact fun hc => absurd hc.2 (not_lt.mpr hge)

/-- witness for C2 on the 2-row tabulated cohort `chT`: at the starting age
the shared row index is 0 and the lookup succeeds; two years in, the index
is 730 and the lookup fails. -/
theorem Intake_table_row_and_bounds_witness :
    Intake chT (fun _ => 10) =
        some (fun i => chT.EIntake (⌊365.0 * ((10 : ℚ) - chT.age 0) / chT.dt⌋).toNat i) ∧
      Intake chT (fun _ => 12) = none := by
  have harg : 365.0 * (((fun _ => (10 : ℚ)) 0) - chT.age 0) / chT.dt = 0 := by
    norm_num [chT]
  have harg2 : 365.0 * (((fun _ => (12 : ℚ)) 0) - chT.age 0) / chT.dt = 730 := by
    norm_num [chT]
  have hf730 : ⌊(730 : ℚ)⌋ = 730 := by rw [Int.floor_eq_iff]; norm_num
  constructor
  · exact (Intake_table_row_and_bounds chT (fun _ => 10) rfl).1
      (by rw [harg]; simp) (by rw [harg]; simp [chT])
  · exact (Intake_table_row_and_bounds chT (fun _ => 12) rfl).2
      (by rw [harg2, hf730]; norm_num [chT])

/-! ## C1 -/

set_option maxHeartbeats 4000000 in
/-- C1 code-bug evidence: at `dt = 2`, the second RK4 stage actually computed
by the loop body (mass perturbed by `0.5*k1`, exactly as in
`k2 = dMass(age + 0.5*dt/365, FFM + 0.5*k1(0,_), FM + 0.5*k1(1,_))`) differs
from the claim's dt-scaled stage `dMass(age + 0.5*dt/365, FFM + 0.5*dt*k1(0,_),
FM + 0.5*dt*k1(1,_))`: the code's stage perturbations are not scaled by `dt`. -/
theorem rk4_stage_perturbation_not_dt_scaled :
    ((dMass chL (fun _ => 10) (fun _ => 25) (fun _ => 8)).map fun k1 =>
        (dMass chL (fun _ => 10 + 0.5 * chL.dt / 365.0)
            (fun i => 25 + 0.5 * k1.1 i) (fun i => 8 + 0.5 * k1.2 i)).map fun k2 => k2.1 0) ≠
    ((dMass chL (fun _ => 10) (fun _ => 25) (fun _ => 8)).map fun k1 =>
        (dMass chL (fun _ => 10 + 0.5 * chL.dt / 365.0)
            (fun i => 25 + 0.5 * chL.dt * k1.1 i) (fun i => 8 + 0.5 * chL.dt * k1.2 i)).map
          fun k2 => k2.1 0) := by
  have hdt : chL.dt = 2 := rfl
  rw [hdt]
  have ht2 : (fun _ : ℕ => (10 : ℚ) + 0.5 * 2 / 365.0) = (fun _ : ℕ => (3651 / 365 : ℚ)) := by
    funext i; norm_num
  rw [ht2]
  have hI : ∀ t : ℕ → ℚ, Intake chL t = some (fun _ => 1800) := by
    intro t; simp only [Intake, chL]; norm_num [Eone]
  have hG : ∀ (t : ℕ → ℚ) (i : ℕ), Growth_dynamic chL t i = 229 / 10 := by
    intro t i
    simp only [Growth_dynamic, general_ode, chL, Eone, A, B, D, tA, tB, tD, tauA, tauB, tauD]
    norm_num
  have hEB : ∀ (t : ℕ → ℚ) (i : ℕ), EB_impact chL t i = 291 / 5 := by
    intro t i
    simp only [EB_impact, general_ode, chL, Eone, A_EB, B_EB, D_EB, tA_EB, tB_EB, tD_EB,
      tauA_EB, tauB_EB, tauD_EB]
    norm_num
  have hf2 : ⌊(3651 / 365 : ℚ)⌋ = 10 := by rw [Int.floor_eq_iff]; norm_num
  have hidx : ((min (max (10 : ℤ) 2) 17 - 2).toNat) = 8 := by decide
  have hrl2 : ∀ tbl : ℕ → ℚ, refLookup tbl (3651 / 365 : ℚ) = tbl 8 + 1 / 365 * (tbl 9 - tbl 8) := by
    intro tbl
    rw [refLookup_lt18 tbl _ (by norm_num), hf2, hidx]
    push_cast
    ring_nf
  have hrow8f : ∀ i : ℕ, ffm_ref chL 8 i = 52597 / 2000 := by
    intro i; norm_num [ffm_ref, ffm_ref_mean, chL, under, normales, over, obese]
  have hrow9f : ∀ i : ℕ, ffm_ref chL 9 i = 137431 / 5000 := by
    intro i; norm_num [ffm_ref, ffm_ref_mean, chL, under, normales, over, obese]
  have hrow8m : ∀ i : ℕ, fm_ref chL 8 i = 24991 / 5000 := by
    intro i; norm_num [fm_ref, fm_ref_mean, chL, under, normales, over, obese]
  have hrow9m : ∀ i : ℕ, fm_ref chL 9 i = 54113 / 10000 := by
    intro i; norm_num [fm_ref, fm_ref_mean, chL, under, normales, over, obese]
  have hF1 : ∀ i, FFMReference chL (fun _ => (10 : ℚ)) i = 52597 / 2000 := by
    intro i; simp only [FFMReference]; rw [refLookup_at_integer_ten]; exact hrow8f i
  have hM1 : ∀ i, FMReference chL (fun _ => (10 : ℚ)) i = 24991 / 5000 := by
    intro i; simp only [FMReference]; rw [refLookup_at_integer_ten]; exact hrow8m i
  have hF2 : ∀ i, FFMReference chL (fun _ => (3651 / 365 : ℚ)) i = ((48000701 : ℚ) / 1825000) := by
    intro i; simp only [FFMReference]; rw [hrl2]; simp only [hrow8f, hrow9f]; norm_num
  have hM2 : ∀ i, FMReference chL (fun _ => (3651 / 365 : ℚ)) i = ((18247561 : ℚ) / 3650000) := by
    intro i; simp only [FMReference]; rw [hrl2]; simp only [hrow8m, hrow9m]; norm_num
  have hd1 : ∀ i, Delta chL (fun _ => (10 : ℚ)) i = ((1246513594 : ℚ) / 70231801) := by
    intro i; simp only [Delta, deltamin, deltamax, P, chL]; norm_num
  have hd2 : ∀ i, Delta chL (fun _ => (3651 / 365 : ℚ)) i = ((907415921179144452872739686644490 : ℚ) / 51134672471366457994089968664449) := by
    intro i; simp only [Delta, deltamin, deltamax, P, chL]; norm_num
  have hK : ∀ i, K chL i = 800 := by
    intro i; simp only [K, chL]; norm_num
  have hIR1 : ∀ i, IntakeReference chL (fun _ => (10 : ℚ)) i = ((604465114993376719573360744404177 : ℚ) / 297220819769288441468300170000) := by
    intro i
    simp only [IntakeReference, cP, cRhoFFM, hF1, hM1, hd1, hG, hEB, hK, rhoFM]
    norm_num
  have hIR2 : ∀ i, IntakeReference chL (fun _ => (3651 / 365 : ℚ)) i = ((1337869324039953847709173794437176692284921982509085148987071170291 : ℚ) / 657821802771106384587337812016576127896586026451886086025500000) := by
    intro i
    simp only [IntakeReference, cP, cRhoFFM, hF2, hM2, hd2, hG, hEB, hK, rhoFM]
    norm_num
  have hEx1 : Expenditure chL (fun _ => (10 : ℚ)) (fun _ => 25) (fun _ => 8) =
      some (fun _ => ((3001215893990879639741625800787883250883387 : ℚ) / 1558985590055247696261204106209435125000)) := by
    unfold Expenditure
    rw [hI]
    simp only [Option.map_some']
    refine congrArg some (funext fun i => ?_)
    simp only [hIR1, hd1, hG, hK, cP, cRhoFFM, rhoFM]
    norm_num
  have hk1 : dMass chL (fun _ => (10 : ℚ)) (fun _ => 25) (fun _ => 8) =
      some (fun _ => ((536194211963447747899410133985707309 : ℚ) / 59960984232894142163892465623439812500), fun _ => (-(8859963964026390332622307415795193203 : ℚ) / 623594236022099078504481642483774050000)) := by
    unfold dMass
    rw [hEx1, hI]
    simp only [Option.some_bind, Option.map_some']
    rw [Option.some.injEq, Prod.mk.injEq]
    constructor <;> funext i <;> simp only [cP, cRhoFFM, hG, rhoFM] <;> norm_num
  have hExc : Expenditure chL (fun _ => (3651 / 365 : ℚ))
      (fun i => 25 + 0.5 * ((536194211963447747899410133985707309 : ℚ) / 59960984232894142163892465623439812500)) (fun i => 8 + 0.5 * (-(8859963964026390332622307415795193203 : ℚ) / 623594236022099078504481642483774050000)) =
      some (fun _ => ((5487909225869550205427368228778968276335408209727979669892935966831840412496022826299183994995896438377438097477242934035099935533421468721718395655334211985241383428580424792575713219559 : ℚ) / 2850834602004258613196983639193377729162734993978065787592704672026129245121328745943805327345506324167398238409453049747427113819488173248765345904265144386208162607834121068606250000)) := by
    unfold Expenditure
    rw [hI]
    simp only [Option.map_some']
    refine congrArg some (funext fun i => ?_)
    simp only [hIR2, hd2, hG, hK, cP, cRhoFFM, rhoFM]
    norm_num
  have hk2c : dMass chL (fun _ => (3651 / 365 : ℚ))
      (fun i => 25 + 0.5 * ((536194211963447747899410133985707309 : ℚ) / 59960984232894142163892465623439812500)) (fun i => 8 + 0.5 * (-(8859963964026390332622307415795193203 : ℚ) / 623594236022099078504481642483774050000)) =
      some (fun _ => ((3269943406613451807661964087992736036717473567727355822601376601761970295960983669571211604005052522464192710727105986329873801218942581068947 : ℚ) / 365729435883141173775662302517175788556320371531875598012018570253495223182131213225892135192067352168521538011212616572393173271309297832638170), fun _ => (-(5181028324173195961175008524995851538774117987244227629640800689978903167260192743518455679132495642277489120358133978820797599484167908266445176022522798085897431101310980413166157 : ℚ) / 364906829056545102489213905816752349332830079229192420811866198019344543375530079480807081900224809493426974516409990367670670568894486175841964275745938481434644813802767496781600000)) := by
    unfold dMass
    rw [hExc, hI]
    simp only [Option.some_bind, Option.map_some']
    rw [Option.some.injEq, Prod.mk.injEq]
    constructor <;> funext i <;> simp only [cP, cRhoFFM, hG, rhoFM] <;> norm_num
  have hExs : Expenditure chL (fun _ => (3651 / 365 : ℚ))
      (fun i => 25 + 0.5 * 2 * ((536194211963447747899410133985707309 : ℚ) / 59960984232894142163892465623439812500)) (fun i => 8 + 0.5 * 2 * (-(8859963964026390332622307415795193203 : ℚ) / 623594236022099078504481642483774050000)) =
      some (fun _ => ((751353394179953753565035069714119409803335496993364196845225927423138490045419869670769907080742001297101807924302467348236290912942532141871657072885164245473880098592505857597379333 : ℚ) / 390306058985432098026283738567929639193051727481272262987136162933079742206204277922584136409802817339095545647937444996102658737153491273864880230843367102299780749238340821875000)) := by
    unfold Expenditure
    rw [hI]
    simp only [Option.map_some']
    refine congrArg some (funext fun i => ?_)
    simp only [hIR2, hd2, hG, hK, cP, cRhoFFM, rhoFM]
    norm_num
  have hk2s : dMass chL (fun _ => (3651 / 365 : ℚ))
      (fun i => 25 + 0.5 * 2 * ((536194211963447747899410133985707309 : ℚ) / 59960984232894142163892465623439812500)) (fun i => 8 + 0.5 * 2 * (-(8859963964026390332622307415795193203 : ℚ) / 623594236022099078504481642483774050000)) =
      some (fun _ => ((20559692677646700755475803521153685378184956979675249888621046752804616797633516775862606305689382989478972554480956750934901408983825355997 : ℚ) / 2303302715285984864703004485681743379976626781224496272312929773064628651385754220688532620631634723177080431345609346825984833696221041395290), fun _ => (-(709354280958643908295313602114172423984673465579358685886892700453268754193664915891834538127845140255763246054898476570116193211234153044602854277671981286413642865881701637509 : ℚ) / 49959175550135308547364318536694993816710621117602849662353428855434207002394147574090769460454760619404229842935992959501140318355646883054704669547950989094371935902507625200000)) := by
    unfold dMass
    rw [hExs, hI]
    simp only [Option.some_bind, Option.map_some']
    rw [Option.some.injEq, Prod.mk.injEq]
    constructor <;> funext i <;> simp only [cP, cRhoFFM, hG, rhoFM] <;> norm_num
  rw [hk1]
  simp only [Option.map_some']
  rw [hk2c, hk2s]
  simp only [Option.map_some', ne_eq, Option.some.injEq]
  norm_num

/-! ## C5 -/

/-- C5: `dMass(t, FFM, FM)` returns row 0 (dFFM) equal to
`(p*(Intake(t) - Expenditure(t,FFM,FM)) + growth)/rhoFFM` and row 1 (dFM)
equal to `((1-p)*(Intake(t) - Expenditure(t,FFM,FM)) - growth)/9400`, where
`p = cP(FFM,FM)`, `rhoFFM = cRhoFFM(FFM)` and `growth = Growth_dynamic(t)`
are evaluated at the current (not reference) masses. -/
theorem dMass_formula (c : Child) (t FFM FM Iv Ex : ℕ → ℚ)
    (hI : Intake c t = some Iv) (hE : Expenditure c t FFM FM = some Ex) :
    dMass c t FFM FM = some
      (fun i => (cP FFM FM i * (Iv i - Ex i) + Growth_dynamic c t i) / cRhoFFM FFM i,
       fun i => ((1 - cP FFM FM i) * (Iv i - Ex i) - Growth_dynamic c t i) / 9400) := by
  unfold dMass
  rw [hE, hI]
  simp only [Option.some_bind, Option.map_some']
  rw [Option.some.injEq, Prod.mk.injEq]
  constructor <;> funext i
  · norm_num
  · norm_num [rhoFM]

/-- witness for C5: `dMass` on the concrete cohort `chL` at its starting
state, with the intake and expenditure values it actually produces there. -/
theorem dMass_formula_witness :
    dMass chL chL.age chL.FFM chL.FM = some
      (fun i => (cP chL.FFM chL.FM i *
          (((Intake chL chL.age).getD (fun _ => 0)) i -
            ((Expenditure chL chL.age chL.FFM chL.FM).getD (fun _ => 0)) i) +
          Growth_dynamic chL chL.age i) / cRhoFFM chL.FFM i,
       fun i => ((1 - cP chL.FFM chL.FM i) *
          (((Intake chL chL.age).getD (fun _ => 0)) i -
            ((Expenditure chL chL.age chL.FFM chL.FM).getD (fun _ => 0)) i) -
          Growth_dynamic chL chL.age i) / 9400) :=
  dMass_formula chL chL.age chL.FFM chL.FM
    ((Intake chL chL.age).getD (fun _ => 0))
    ((Expenditure chL chL.age chL.FFM chL.FM).getD (fun _ => 0)) rfl rfl

/-! ## C8 -/

/-- C8: whenever `rk4` returns an output bundle, its `Correct_Values` field
is `true`: the flag is the constant `bool correctVals = true`, never derived
from the computed trajectory (even when a mass becomes non-positive). -/
theorem rk4_correct_values_always_true (c : Child) (days : ℚ) (out : RkOut)
    (h : rk4 c days = some out) : out.Correct_Values = true := by
  unfold rk4 at h
  split at h
  · exact Option.noConfusion h
  · rw [Option.some.injEq] at h
    subst h
    rfl

/-! ## C6 -/

/-- C6: in every `rk4` output bundle, `Body_Weight[i,s]` equals
`Fat_Free_Mass[i,s] + Fat_Mass[i,s]` exactly, for every individual `i` and
every step `s` up to `floor(days/dt)`. -/
theorem rk4_bodyweight_eq_sum (c : Child) (days : ℚ) (out : RkOut)
    (h : rk4 c days = some out) (i s : ℕ) (hs : s ≤ (⌊days / c.dt⌋).toNat) :
    out.Body_Weight i s = out.Fat_Free_Mass i s + out.Fat_Mass i s := by
  unfold rk4 at h
  split at h
  · exact Option.noConfusion h
  · rw [Option.some.injEq] at h
    subst h
    rfl

theorem rk4_chL_zero_eval : rk4 chL 0 = some chL_out := by
  have h0 : ((⌊(0 : ℚ) / chL.dt⌋).toNat) = 0 := by norm_num [chL]
  unfold chL_out rk4
  rw [h0]
  rfl

/-- witness for C8 at the concrete cohort `chL` with a zero-day horizon. -/
theorem rk4_correct_values_always_true_witness :
    rk4 chL 0 = some chL_out ∧ chL_out.Correct_Values = true :=
  ⟨rk4_chL_zero_eval, rk4_correct_values_always_true chL 0 chL_out rk4_chL_zero_eval⟩

/-- witness for C6 at the concrete cohort `chL` with a zero-day horizon. -/
theorem rk4_bodyweight_eq_sum_witness :
    rk4 chL 0 = some chL_out ∧
      chL_out.Body_Weight 0 0 = chL_out.Fat_Free_Mass 0 0 + chL_out.Fat_Mass 0 0 :=
  ⟨rk4_chL_zero_eval,
   rk4_bodyweight_eq_sum chL 0 chL_out rk4_chL_zero_eval 0 0 (Nat.zero_le _)⟩

/-! ## C7 -/

/-- C7 counterexample: the claim says changing `referenceValues` from 0 to 1
changes the value of `IntakeReference(t)` for every cohort and every age
vector; but at age 3 the mean and median tables coincide (rows 0..3 are
shared), so the value is unchanged. -/
theorem intakeref_unchanged_at_age_three :
    IntakeReference (chC7 Eone 0) (fun _ => 3) 0 =
      IntakeReference (chC7 Eone 1) (fun _ => 3) 0 := by
  have hf3 : ⌊(3 : ℚ)⌋ = 3 := by rw [Int.floor_eq_iff]; norm_num
  have hidx3 : ((min (max (3 : ℤ) 2) 17 - 2).toNat) = 1 := by decide
  have hrl3 : ∀ tbl : ℕ → ℚ, refLookup tbl 3 = tbl 1 := by
    intro tbl
    rw [refLookup_lt18 tbl _ (by norm_num), hf3, hidx3]
    push_cast
    ring_nf
  simp only [IntakeReference, FFMReference, FMReference, cP, cRhoFFM, hrl3]
  norm_num [ffm_ref, fm_ref, ffm_ref_mean, ffm_ref_median, fm_ref_mean, fm_ref_median,
    chC7, under, normales, over, obese, EB_impact, Growth_dynamic, general_ode, Delta,
    K, deltamin, deltamax, P, rhoFM, Eone, A, B, D, tA, tB, tD, tauA, tauB, tauD,
    A_EB, B_EB, D_EB, tA_EB, tB_EB, tD_EB, tauA_EB, tauB_EB, tauD_EB]

set_option maxHeartbeats 2000000 in
theorem intakeref_differs_at_age_six (E : ℚ → ℚ) (hpos : ∀ x, 0 < E x) (hle : ∀ x, x ≤ 0 → E x ≤ 1) :
    IntakeReference (chC7 E 0) (fun _ => 6) 0 ≠ IntakeReference (chC7 E 1) (fun _ => 6) 0 := by
  intro heq
  have hf6 : ⌊(6 : ℚ)⌋ = 6 := by rw [Int.floor_eq_iff]; norm_num
  have hidx6 : ((min (max (6 : ℤ) 2) 17 - 2).toNat) = 4 := by decide
  have hrl6 : ∀ tbl : ℕ → ℚ, refLookup tbl 6 = tbl 4 := by
    intro tbl
    rw [refLookup_lt18 tbl _ (by norm_num), hf6, hidx6]
    push_cast
    ring_nf
  have hF0 : ∀ i, FFMReference (chC7 E 0) (fun _ => 6) i = 85119 / 5000 := by
    intro i
    simp only [FFMReference, hrl6]
    norm_num [ffm_ref, ffm_ref_mean, chC7, under, normales, over, obese]
  have hF1 : ∀ i, FFMReference (chC7 E 1) (fun _ => 6) i = 17143 / 1000 := by
    intro i
    simp only [FFMReference, hrl6]
    norm_num [ffm_ref, ffm_ref_median, chC7, under, normales, over, obese]
  have hM0 : ∀ i, FMReference (chC7 E 0) (fun _ => 6) i = 1727 / 500 := by
    intro i
    simp only [FMReference, hrl6]
    norm_num [fm_ref, fm_ref_mean, chC7, under, normales, over, obese]
  have hM1 : ∀ i, FMReference (chC7 E 1) (fun _ => 6) i = 17321 / 5000 := by
    intro i
    simp only [FMReference, hrl6]
    norm_num [fm_ref, fm_ref_median, chC7, under, normales, over, obese]
  have hd : ∀ (r : ℚ) (i : ℕ), Delta (chC7 E r) (fun _ => 6) i = 19466 / 1025 := by
    intro r i
    simp only [Delta, deltamin, deltamax, P, chC7]
    norm_num
  have hK : ∀ (r : ℚ) (i : ℕ), K (chC7 E r) i = 800 := by
    intro r i
    simp only [K, chC7]
    norm_num
  have hEB : ∀ (r : ℚ) (i : ℕ), EB_impact (chC7 E r) (fun _ => 6) i =
      36 / 5 * E (-(2 / 75)) + 30 * E (-(722 / 225)) + 21 * E (-(81 / 8)) := by
    intro r i
    simp only [EB_impact, general_ode, chC7, A_EB, B_EB, D_EB, tA_EB, tB_EB, tD_EB,
      tauA_EB, tauB_EB, tauD_EB]
    norm_num
  have hg : ∀ (r : ℚ) (i : ℕ), Growth_dynamic (chC7 E r) (fun _ => 6) i =
      16 / 5 * E (-(13 / 25)) + 48 / 5 * E (-(169 / 8)) + 101 / 10 * E (-18) := by
    intro r i
    simp only [Growth_dynamic, general_ode, chC7, A, B, D, tA, tB, tD, tauA, tauB, tauD]
    norm_num
  simp only [IntakeReference, cP, cRhoFFM, rhoFM, hF0, hF1, hM0, hM1, hd, hK, hEB, hg] at heq
  norm_num at heq
  linarith [hpos (-(2 / 75) : ℚ), hle (-(2 / 75) : ℚ) (by norm_num),
    hpos (-(722 / 225) : ℚ), hle (-(722 / 225) : ℚ) (by norm_num),
    hpos (-(81 / 8) : ℚ), hle (-(81 / 8) : ℚ) (by norm_num),
    hpos (-(13 / 25) : ℚ), hle (-(13 / 25) : ℚ) (by norm_num),
    hpos (-(169 / 8) : ℚ), hle (-(169 / 8) : ℚ) (by norm_num),
    hpos (-18 : ℚ), hle (-18 : ℚ) (by norm_num)]

/-- C7 (amended): changing only `referenceValues` never changes whether `rk4`
produces a bundle nor the shape (`nind`, `ncols`) of its arrays; it changes
the value of `IntakeReference(t)` at ages where the mean and median tables
differ (e.g. age 6 for a normal-BMI male, for any exp-model satisfying
`0 < E` and `E x ≤ 1` for `x ≤ 0`), but not at every age (at age 3 the two
tables coincide). -/
theorem referenceValues_shape_and_value :
    (∀ (c : Child) (r days : ℚ),
        ((rk4 c days).isSome ↔ (rk4 (setRef c r) days).isSome) ∧
        ∀ out0 out1, rk4 c days = some out0 → rk4 (setRef c r) days = some out1 →
          out0.nind = out1.nind ∧ out0.ncols = out1.ncols) ∧
    (∀ E : ℚ → ℚ, (∀ x, 0 < E x) → (∀ x, x ≤ 0 → E x ≤ 1) →
        IntakeReference (chC7 E 0) (fun _ => 6) 0 ≠
          IntakeReference (chC7 E 1) (fun _ => 6) 0) := by
  constructor
  · intro c r days
    constructor
    · have hb : (rk4 (setRef c r) days).isSome = (rk4 c days).isSome := by
        rw [rk4_isSome_eq_states, rk4_isSome_eq_states,
          show (setRef c r).dt = c.dt from rfl, states_setRef_isSome]
      rw [hb]
    · intro out0 out1 h0 h1
      unfold rk4 at h0 h1
      split at h0
      · exact Option.noConfusion h0
      · split at h1
        · exact Option.noConfusion h1
        · rw [Option.some.injEq] at h0 h1
          subst h0
          subst h1
          exact ⟨rfl, rfl⟩
  · exact intakeref_differs_at_age_six

/-- witness for C7 (amended): the shape part at the concrete cohort `chL`,
and the value part at the stub exp-model `Eone`. -/
theorem referenceValues_shape_and_value_witness :
    ((rk4 chL 0).isSome ↔ (rk4 (setRef chL 1) 0).isSome) ∧
      IntakeReference (chC7 Eone 0) (fun _ => 6) 0 ≠
        IntakeReference (chC7 Eone 1) (fun _ => 6) 0 :=
  ⟨(referenceValues_shape_and_value.1 chL 1 0).1,
   referenceValues_shape_and_value.2 Eone (fun x => one_pos) (fun x _ => le_refl 1)⟩

end ChildWeight
